import Mathlib

/-!
Shallow embedding of the core logic of `src/project/src/App.tsx`
(identical, for the embedded parts, to `src/unnamed/part_000`):
the prompt classifier `handleGenerateAgent` and the conversation
controller `handleSendMessage` of the agent-generator UI.

Modelling conventions:
- JS `Date.now()` values are `Nat` parameters (`now`, `tSend`, `tRecv`);
  each handler observes one timestamp per event.
- `Number.prototype.toString()` on a natural number is `natToString`
  (decimal) and `toString(36)` is `natToBase36` (lowercase base 36),
  both built from `Nat.digits`.
- The network is a parameter: the outcome of the awaited `fetch` is an
  explicit `ApiOutcome` argument, and the request the handler would
  dispatch is returned as data (`ChatRequest`).
- Because the file is compiled with `@ts-nocheck`, `response.messages`
  may be absent at runtime even though `Message.content` is declared
  `string`; a message text is therefore modelled as `Option String`,
  `none` standing for the JS value `undefined`.
-/

namespace UiAitm

/-- Enumeration `AgentType` of the source (five fixed categories). -/
inductive AgentType where
  | habitTracker
  | physicsNotes
  | desktopAgent
  | customNotion
  | search
deriving DecidableEq

/-- String value of each `AgentType` enum member in the source. -/
def AgentType.key : AgentType → String
  | .habitTracker => "habit-tracker"
  | .physicsNotes => "physics-notes"
  | .desktopAgent => "desktop-agent"
  | .customNotion => "custom-notion"
  | .search => "search"

/-- Sender tag of a `Message` (the source union type `user | agent`). -/
inductive Sender where
  | user
  | agent
deriving DecidableEq

/-- Digit character for bases up to 36, as produced by the JS
`Number.prototype.toString(radix)`: `0`-`9` then lowercase `a`-`z`. -/
def digitChar36 (d : Nat) : Char :=
  if d < 10 then Char.ofNat (48 + d) else Char.ofNat (87 + d)

/-- Little-endian base-`b` digit list of `n`, with explicit fuel so
that the kernel can evaluate it (proved equal to `Nat.digits` below
when the fuel suffices). -/
def digitsRevAux (b : Nat) : Nat → Nat → List Nat
  | _, 0 => []
  | 0, _ + 1 => []
  | fuel + 1, n + 1 => (n + 1) % b :: digitsRevAux b fuel ((n + 1) / b)

/-- JS `n.toString()` for a natural number: decimal digits, most
significant first, and `"0"` for zero. -/
def natToString (n : Nat) : String :=
  if n = 0 then "0" else ((digitsRevAux 10 n n).reverse.map digitChar36).asString

/-- JS `n.toString(36)` for a natural number. -/
def natToBase36 (n : Nat) : String :=
  if n = 0 then "0" else ((digitsRevAux 36 n n).reverse.map digitChar36).asString

/-- First list is an initial run of the second (kernel-computable
analogue of `List.isPrefixOf`, written with decidable `Char` equality
so that `decide` evaluates it). -/
def charsStart : List Char → List Char → Bool
  | [], _ => true
  | _ :: _, [] => false
  | a :: p, b :: s => a = b && charsStart p s

/-- JS `String.prototype.startsWith` over the character sequences. -/
def strStartsWith (s p : String) : Bool :=
  charsStart p.data s.data

/-- JS `String.prototype.endsWith` over the character sequences. -/
def strEndsWith (s p : String) : Bool :=
  charsStart p.data.reverse s.data.reverse

/-- ASCII lowercasing of one character, the fragment of JS
`String.prototype.toLowerCase` relevant to the classifier rules. -/
def charToLower (c : Char) : Char :=
  if 65 ≤ c.toNat && c.toNat ≤ 90 then Char.ofNat (c.toNat + 32) else c

/-- JS `String.prototype.toLowerCase` (ASCII fragment). -/
def strToLower (s : String) : String :=
  (s.data.map charToLower).asString

/-- Whitespace characters removed by JS `String.prototype.trim`
(ASCII fragment). -/
def isWhite (c : Char) : Bool :=
  c = ' ' || c = '\t' || c = '\n' || c = '\r'

/-- JS `String.prototype.trim` over the character sequences. -/
def strTrim (s : String) : String :=
  ((s.data.dropWhile isWhite).reverse.dropWhile isWhite).reverse.asString

/-- JS `String.prototype.includes` with a single-character needle. -/
def strContainsChar (s : String) (c : Char) : Bool :=
  s.data.any (fun x => x = c)

/-- JS `String.prototype.split` with a single-character separator,
over a character sequence: the list of maximal separator-free runs
(`"a|".split` gives `["a", ""]`, `"".split` gives `[""]`). -/
def splitOnChar (sep : Char) : List Char → List (List Char)
  | [] => [[]]
  | c :: rest =>
      let r := splitOnChar sep rest
      if c = sep then [] :: r
      else
        match r with
        | h :: t => (c :: h) :: t
        | [] => [[c]]

/-- JS `String.prototype.split` with a single-character separator. -/
def strSplitOn (s : String) (sep : Char) : List String :=
  (splitOnChar sep s.data).map List.asString

/-- JS `Array.prototype.join` with separator `"\n"`. -/
def joinWithNewline : List String → String
  | [] => ""
  | [s] => s
  | s :: rest => s ++ "\n" ++ joinWithNewline rest

/-- Interface `Message` of the source. `content` is `Option String`
because under `@ts-nocheck` the agent-reply content can be the JS value
`undefined` (modelled as `none`). `timestamp` is the `Date` creation
time as a `Nat`. -/
structure Message where
  id : String
  content : Option String
  sender : Sender
  timestamp : Nat
deriving DecidableEq

/-- Interface `Agent` of the source. -/
structure Agent where
  id : String
  name : String
  type : AgentType
  avatar : String
  description : String
  messages : List Message
  notionId : Option String
  pageId : Option String
deriving DecidableEq

/-- Classification chain of `handleGenerateAgent` (lines 72-100 of the
source): the if/else ladder on the lower-cased prompt, returning the
matched category together with its fixed display name, or `none` when
no rule applies. -/
def classifyPrompt (prompt : String) : Option (AgentType × String) :=
  if strEndsWith (strToLower prompt) "habit tracker" then
    some (.habitTracker, "Habit Tracker Assistant")
  else if strEndsWith (strToLower prompt) "physics notes" then
    some (.physicsNotes, "Physics Notes Assistant")
  else if strStartsWith (strToLower prompt) "code me an app" then
    some (.desktopAgent, "Desktop App Developer")
  else if strStartsWith (strToLower prompt) "create me an agent to" then
    some (.customNotion, "Custom Notion Agent")
  else if strStartsWith (strToLower prompt) "search for" then
    some (.search, "Search Assistant")
  else
    none

/-- Body of the POST to `create-custom-notion-agent` issued while
classifying a custom-notion prompt. -/
structure CreateNotionRequest where
  notion_id : String
deriving DecidableEq

/-- Result of `handleGenerateAgent`: the new entity collection and the
backend creation request, when one was issued. -/
structure GenerateResult where
  agents : List Agent
  createRequest : Option CreateNotionRequest
deriving DecidableEq

/-- The new `Agent` record built at the end of `handleGenerateAgent`
(lines 102-111 of the source). `pageId` is never assigned in the
source, so it is `none` here. -/
def mkAgent (prompt : String) (t : AgentType) (name : String)
    (notionId : Option String) (now : Nat) : Agent :=
  { id := natToString now
    name := name
    type := t
    avatar := "https://source.unsplash.com/random/200x200?" ++ t.key ++ "," ++ natToString now
    description := prompt
    messages := []
    notionId := notionId
    pageId := none }

/-- The handler `handleGenerateAgent` (lines 64-115 of the source).
`now` is the `Date.now()` timestamp of the call; `createOk` is the
outcome of the awaited `create-custom-notion-agent` call (the source
catches and logs a failure, so the outcome does not influence the
result - the local entity is appended either way). An empty trimmed
prompt or an unmatched prompt is a no-op. -/
def handleGenerateAgent (prompt : String) (agents : List Agent) (now : Nat)
    (createOk : Bool) : GenerateResult :=
  if strTrim prompt = "" then
    { agents := agents, createRequest := none }
  else
    match classifyPrompt prompt with
    | none => { agents := agents, createRequest := none }
    | some (t, name) =>
        let notionId : Option String :=
          if t = .customNotion then some ("CustomNotion-" ++ natToBase36 now) else none
        let _ := createOk
        { agents := agents ++ [mkAgent prompt t name notionId now]
          createRequest := notionId.map (fun nid => { notion_id := nid }) }

/-- The `messages` field of a parsed 2xx JSON response body: absent
(JS `undefined`), a single string, or an array of strings. -/
inductive JsonMessages where
  | absent
  | str (s : String)
  | arr (l : List String)
deriving DecidableEq

/-- Outcome of the awaited `callAgentAPI` call inside
`handleSendMessage`. `httpError` is every path on which
`callAgentAPI` throws: transport error, non-2xx status (the explicit
`throw` on `!response.ok`), or `response.json()` rejecting. `ok body`
is a 2xx response whose body parsed as JSON. -/
inductive ApiOutcome where
  | httpError
  | ok (body : JsonMessages)
deriving DecidableEq

/-- Agent-reply text computed from a parsed body (line 197 of the
source): `Array.isArray(response.messages) ? response.messages.join
: response.messages`. When the field is absent the JS value stored in
`content` is `undefined`, i.e. `none`. -/
def renderedContent : JsonMessages → Option String
  | .absent => none
  | .str s => some s
  | .arr l => some (joinWithNewline l)

/-- Request payload shapes built by the `switch` in
`handleSendMessage`. -/
inductive Payload where
  | messageOnly (message : String)
  | queryOnly (query : String)
  | notion (message : String) (notion_id : String) (page_id : String)
deriving DecidableEq

/-- A dispatched chat request: endpoint path and JSON payload. -/
structure ChatRequest where
  endpoint : String
  payload : Payload
deriving DecidableEq

/-- Endpoint and payload construction of `handleSendMessage`
(lines 142-189 of the source), per agent category. -/
def buildRequest (currentMessage : String) (selectedAgent : Agent) : ChatRequest :=
  match selectedAgent.type with
  | .habitTracker => { endpoint := "habit-tracker", payload := .messageOnly currentMessage }
  | .physicsNotes => { endpoint := "physics-notes", payload := .messageOnly currentMessage }
  | .desktopAgent => { endpoint := "desktop-agent", payload := .messageOnly currentMessage }
  | .search => { endpoint := "search", payload := .queryOnly currentMessage }
  | .customNotion =>
      if strContainsChar currentMessage '|' then
        let parts := (strSplitOn (strTrim currentMessage) '|').map strTrim
        let actualMessage := parts.getD 0 ""
        let fullNotionId := parts.getD 1 ""
        let pageId :=
          if strContainsChar fullNotionId '-' then (strSplitOn fullNotionId '-').getD 1 "" else ""
        { endpoint := "custom-notion", payload := .notion actualMessage fullNotionId pageId }
      else
        { endpoint := "custom-notion"
          payload := .notion currentMessage (selectedAgent.notionId.getD "")
            (selectedAgent.pageId.getD "") }

/-- The fixed fallback text appended on a failed send. -/
def fallbackText : String :=
  "Sorry, I encountered an error while processing your request. Please try again."

/-- Result of `handleSendMessage`. `optimisticAgents` and
`optimisticSelected` are the state installed by the first `setAgents`
and `setSelectedAgent` calls, before the network call settles; `agents`
and `selectedAgent` are the state after the `try`/`catch` completes;
`request` is the dispatched call, when the guard passed. -/
structure SendResult where
  optimisticAgents : List Agent
  optimisticSelected : Agent
  agents : List Agent
  selectedAgent : Agent
  request : Option ChatRequest
deriving DecidableEq

/-- The handler `handleSendMessage` (lines 117-234 of the source).
`tSend` is `Date.now()` when the user message is built, `tRecv` is the
timestamp when the response settles, `outcome` is what the awaited
`callAgentAPI` call did. The source also returns early when no agent
is selected; here a selected agent is an argument, so that guard is
outside the model. -/
def handleSendMessage (currentMessage : String) (agents : List Agent)
    (selectedAgent : Agent) (tSend tRecv : Nat) (outcome : ApiOutcome) : SendResult :=
  if strTrim currentMessage = "" then
    { optimisticAgents := agents, optimisticSelected := selectedAgent
      agents := agents, selectedAgent := selectedAgent, request := none }
  else
    let newMessage : Message :=
      { id := natToString tSend, content := some currentMessage
        sender := .user, timestamp := tSend }
    let updatedAgentWithUserMessage : Agent :=
      { selectedAgent with messages := selectedAgent.messages ++ [newMessage] }
    let req := buildRequest currentMessage selectedAgent
    match outcome with
    | .ok body =>
        let agentResponse : Message :=
          { id := natToString (tRecv + 1), content := renderedContent body
            sender := .agent, timestamp := tRecv }
        let finalUpdatedAgent : Agent :=
          { updatedAgentWithUserMessage with
              messages := updatedAgentWithUserMessage.messages ++ [agentResponse] }
        { optimisticAgents := agents.map (fun agent =>
            if agent.id = selectedAgent.id then updatedAgentWithUserMessage else agent)
          optimisticSelected := updatedAgentWithUserMessage
          agents := agents.map (fun agent =>
            if agent.id = selectedAgent.id then finalUpdatedAgent else agent)
          selectedAgent := finalUpdatedAgent
          request := some req }
    | .httpError =>
        let errorMessage : Message :=
          { id := natToString (tRecv + 1), content := some fallbackText
            sender := .agent, timestamp := tRecv }
        let updatedAgentWithError : Agent :=
          { updatedAgentWithUserMessage with
              messages := updatedAgentWithUserMessage.messages ++ [errorMessage] }
        { optimisticAgents := agents.map (fun agent =>
            if agent.id = selectedAgent.id then updatedAgentWithUserMessage else agent)
          optimisticSelected := updatedAgentWithUserMessage
          agents := agents.map (fun agent =>
            if agent.id = selectedAgent.id then updatedAgentWithError else agent)
          selectedAgent := updatedAgentWithError
          request := some req }

/-- One user send action, as seen by `handleSendMessage`: the typed
text, the two timestamps, and the network outcome. -/
structure SendEvent where
  text : String
  tSend : Nat
  tRecv : Nat
  outcome : ApiOutcome
deriving DecidableEq

/-- UI state carried across sends: the entity collection and the
selected entity. -/
structure AppState where
  agents : List Agent
  selectedAgent : Agent
deriving DecidableEq

/-- One completed send action applied to the UI state. -/
def stepSend (st : AppState) (ev : SendEvent) : AppState :=
  let r := handleSendMessage ev.text st.agents st.selectedAgent ev.tSend ev.tRecv ev.outcome
  { agents := r.agents, selectedAgent := r.selectedAgent }

/-- A sequence of completed send actions applied in order. -/
def runSends (st : AppState) (evs : List SendEvent) : AppState :=
  evs.foldl stepSend st

/-- The user-origin `Message` a send event appends. -/
def userMessageOf (ev : SendEvent) : Message :=
  { id := natToString ev.tSend, content := some ev.text
    sender := .user, timestamp := ev.tSend }

/-- The entity-origin `Message` a send event appends: the rendered
reply on a parsed response, the fallback text on an error. -/
def agentMessageOf (ev : SendEvent) : Message :=
  match ev.outcome with
  | .ok body =>
      { id := natToString (ev.tRecv + 1), content := renderedContent body
        sender := .agent, timestamp := ev.tRecv }
  | .httpError =>
      { id := natToString (ev.tRecv + 1), content := some fallbackText
        sender := .agent, timestamp := ev.tRecv }

/-- The messages a list of send events appends, in order: one user
message then one entity message per event. -/
def sendsMessages : List SendEvent → List Message
  | [] => []
  | ev :: rest => userMessageOf ev :: agentMessageOf ev :: sendsMessages rest

/-- The creation timestamps of a list of send events, in order. -/
def eventTimes : List SendEvent → List Nat
  | [] => []
  | ev :: rest => ev.tSend :: ev.tRecv :: eventTimes rest

/-- A message list that alternates user/entity in pairs, user first. -/
def isUserAgentPairs : List Message → Bool
  | [] => true
  | u :: a :: rest => u.sender = Sender.user && a.sender = Sender.agent && isUserAgentPairs rest
  | _ :: [] => false

/-- One classification rule as the spec states it in section 4.1: a
predicate on the lower-cased prompt, the category it selects, and the
fixed display name of that category. -/
structure ClassRule where
  applies : String → Bool
  type : AgentType
  displayName : String

/-- The fixed priority-ordered rule list written in section 4.1 of the
spec: ends with "habit tracker", ends with "physics notes", starts
with "code me an app", starts with "create me an agent to", starts
with "search for". -/
def specRuleList : List ClassRule :=
  [ { applies := fun s => strEndsWith s "habit tracker"
      type := .habitTracker, displayName := "Habit Tracker Assistant" }
  , { applies := fun s => strEndsWith s "physics notes"
      type := .physicsNotes, displayName := "Physics Notes Assistant" }
  , { applies := fun s => strStartsWith s "code me an app"
      type := .desktopAgent, displayName := "Desktop App Developer" }
  , { applies := fun s => strStartsWith s "create me an agent to"
      type := .customNotion, displayName := "Custom Notion Agent" }
  , { applies := fun s => strStartsWith s "search for"
      type := .search, displayName := "Search Assistant" } ]

/-- Spec-side classifier: the first rule of the priority-ordered list
that applies the lower-cased prompt determines the category and its
display name; `none` when no rule applies. `classifyPrompt` is proved
equal to this below. -/
def firstMatch (p : String) : Option (AgentType × String) :=
  (specRuleList.find? (fun r => r.applies (strToLower p))).map
    (fun r => (r.type, r.displayName))

/-- Concrete habit-tracker entity used by closed counterexample and
witness statements. -/
def probeAgent : Agent :=
  { id := "7", name := "Habit Tracker Assistant", type := .habitTracker
    avatar := "", description := "Create a habit tracker", messages := []
    notionId := none, pageId := none }

/-- Concrete custom-notion entity with stored references `X` and `Y`,
used by closed counterexample and witness statements. -/
def notionProbe : Agent :=
  { id := "9", name := "Custom Notion Agent", type := .customNotion
    avatar := "", description := "create me an agent to manage my notion"
    messages := [], notionId := some "X", pageId := some "Y" }

/-- Concrete custom-notion entity exactly as the classifier creates
one (in particular `pageId` is not populated), used by closed witness
statements. -/
def freshNotionAgent : Agent :=
  mkAgent "create me an agent to manage my notion" .customNotion
    "Custom Notion Agent" (some ("CustomNotion-" ++ natToBase36 5)) 5

/-! Supporting lemmas. -/

theorem digitsRevAux_eq (b : Nat) (hb : 1 < b) :
    ∀ (fuel n : Nat), n ≤ fuel → digitsRevAux b fuel n = Nat.digits b n := by
  intro fuel
  induction fuel with
  | zero =>
      intro n hn
      have : n = 0 := Nat.le_zero.mp hn
      subst this
      simp [digitsRevAux]
  | succ f ih =>
      intro n hn
      match n with
      | 0 => simp [digitsRevAux]
      | m + 1 =>
          have hdiv : (m + 1) / b < m + 1 := Nat.div_lt_self (Nat.succ_pos m) hb
          have hle : (m + 1) / b ≤ f := by omega
          simp only [digitsRevAux]
          rw [ih ((m + 1) / b) hle, Nat.digits_def' hb (Nat.succ_pos m)]

theorem digitChar36_injOn :
    ∀ a : Nat, a < 36 → ∀ c : Nat, c < 36 → digitChar36 a = digitChar36 c → a = c := by
  decide

theorem map_digitChar36_inj :
    ∀ (l1 l2 : List Nat), (∀ x ∈ l1, x < 36) → (∀ x ∈ l2, x < 36) →
      l1.map digitChar36 = l2.map digitChar36 → l1 = l2 := by
  intro l1
  induction l1 with
  | nil => intro l2 _ _ h; cases l2 <;> simp_all
  | cons a t ih =>
      intro l2 h1 h2 h
      cases l2 with
      | nil => simp_all
      | cons c t2 =>
          simp only [List.map_cons, List.cons.injEq] at h
          have ha : a = c :=
            digitChar36_injOn a (h1 a (by simp)) c (h2 c (by simp)) h.1
          have ht : t = t2 :=
            ih t2 (fun x hx => h1 x (by simp [hx])) (fun x hx => h2 x (by simp [hx])) h.2
          rw [ha, ht]

theorem natToString_digits (n : Nat) (hn : n ≠ 0) :
    natToString n = ((Nat.digits 10 n).reverse.map digitChar36).asString := by
  rw [natToString, if_neg hn, digitsRevAux_eq 10 (by norm_num) n n (Nat.le_refl n)]

theorem digits10_lt36 (n : Nat) : ∀ x ∈ Nat.digits 10 n, x < 36 := by
  intro x hx
  have : x < 10 := Nat.digits_lt_base (by norm_num) hx
  omega

theorem natToString_ne_zero_string (n : Nat) (hn : n ≠ 0) : natToString n ≠ "0" := by
  rw [natToString_digits n hn]
  intro h
  have h2 : (Nat.digits 10 n).reverse.map digitChar36 = ['0'] := by
    have := congrArg String.data h
    simpa [List.asString] using this
  have h3 : ['0'] = ([0] : List Nat).map digitChar36 := by decide
  rw [h3] at h2
  have h4 : (Nat.digits 10 n).reverse = [0] := by
    refine map_digitChar36_inj _ _ ?_ (by decide) h2
    intro x hx
    exact digits10_lt36 n x (List.mem_reverse.mp hx)
  have h5 : Nat.digits 10 n = [0] := by
    have := congrArg List.reverse h4
    simpa using this
  have h6 : n = Nat.ofDigits 10 (Nat.digits 10 n) := (Nat.ofDigits_digits 10 n).symm
  rw [h5] at h6
  simp [Nat.ofDigits] at h6
  exact hn h6

theorem natToString_inj (m n : Nat) (h : natToString m = natToString n) : m = n := by
  by_cases hm : m = 0
  · by_cases hn : n = 0
    · rw [hm, hn]
    · subst hm
      exact absurd h.symm (natToString_ne_zero_string n hn)
  · by_cases hn : n = 0
    · subst hn
      exact absurd h (natToString_ne_zero_string m hm)
    · rw [natToString_digits m hm, natToString_digits n hn] at h
      have h2 : (Nat.digits 10 m).reverse.map digitChar36
          = (Nat.digits 10 n).reverse.map digitChar36 := by
        have := congrArg String.data h
        simpa [List.asString] using this
      have h3 : (Nat.digits 10 m).reverse = (Nat.digits 10 n).reverse := by
        refine map_digitChar36_inj _ _ ?_ ?_ h2 <;>
          intro x hx <;>
          exact digits10_lt36 _ x (List.mem_reverse.mp hx)
      have h4 : Nat.digits 10 m = Nat.digits 10 n := by
        have := congrArg List.reverse h3
        simpa using this
      exact Nat.digits_inj_iff.mp h4

theorem classify_eq_firstMatch (p : String) : classifyPrompt p = firstMatch p := by
  simp only [classifyPrompt, firstMatch, specRuleList, List.find?]
  by_cases h1 : strEndsWith (strToLower p) "habit tracker" <;>
    by_cases h2 : strEndsWith (strToLower p) "physics notes" <;>
    by_cases h3 : strStartsWith (strToLower p) "code me an app" <;>
    by_cases h4 : strStartsWith (strToLower p) "create me an agent to" <;>
    by_cases h5 : strStartsWith (strToLower p) "search for" <;>
    simp [h1, h2, h3, h4, h5]

theorem handleGenerateAgent_match (prompt : String) (agents : List Agent) (now : Nat)
    (ok : Bool) (t : AgentType) (name : String)
    (h : classifyPrompt prompt = some (t, name)) (hne : strTrim prompt ≠ "") :
    handleGenerateAgent prompt agents now ok =
      { agents := agents ++ [mkAgent prompt t name
          (if t = .customNotion then some ("CustomNotion-" ++ natToBase36 now) else none) now]
        createRequest :=
          (if t = .customNotion then some ("CustomNotion-" ++ natToBase36 now) else none).map
            (fun nid => { notion_id := nid }) } := by
  simp [handleGenerateAgent, hne, h]

theorem userMessageOf_sender (ev : SendEvent) : (userMessageOf ev).sender = Sender.user := rfl

theorem agentMessageOf_sender (ev : SendEvent) :
    (agentMessageOf ev).sender = Sender.agent := by
  cases h : ev.outcome <;> simp [agentMessageOf, h]

theorem agentMessageOf_timestamp (ev : SendEvent) :
    (agentMessageOf ev).timestamp = ev.tRecv := by
  cases h : ev.outcome <;> simp [agentMessageOf, h]

theorem handleSendMessage_selected (msg : String) (agents : List Agent) (sel : Agent)
    (tS tR : Nat) (out : ApiOutcome) (h : strTrim msg ≠ "") :
    (handleSendMessage msg agents sel tS tR out).selectedAgent
      = { sel with messages := sel.messages
            ++ [userMessageOf ⟨msg, tS, tR, out⟩, agentMessageOf ⟨msg, tS, tR, out⟩] } := by
  cases out <;>
    simp [handleSendMessage, h, userMessageOf, agentMessageOf]

theorem handleSendMessage_request (msg : String) (agents : List Agent) (sel : Agent)
    (tS tR : Nat) (out : ApiOutcome) (h : strTrim msg ≠ "") :
    (handleSendMessage msg agents sel tS tR out).request = some (buildRequest msg sel) := by
  cases out <;> simp [handleSendMessage, h]

theorem handleSendMessage_agents (msg : String) (agents : List Agent) (sel : Agent)
    (tS tR : Nat) (out : ApiOutcome) (h : strTrim msg ≠ "") :
    (handleSendMessage msg agents sel tS tR out).agents
      = agents.map (fun agent =>
          if agent.id = sel.id
          then (handleSendMessage msg agents sel tS tR out).selectedAgent
          else agent) := by
  cases out <;> simp [handleSendMessage, h]

theorem stepSend_messages (st : AppState) (ev : SendEvent) (h : strTrim ev.text ≠ "") :
    (stepSend st ev).selectedAgent.messages
      = st.selectedAgent.messages ++ [userMessageOf ev, agentMessageOf ev] := by
  simp only [stepSend]
  rw [handleSendMessage_selected ev.text st.agents st.selectedAgent ev.tSend ev.tRecv
    ev.outcome h]

theorem runSends_messages (evs : List SendEvent) :
    ∀ st : AppState, (∀ ev ∈ evs, strTrim ev.text ≠ "") →
      (runSends st evs).selectedAgent.messages
        = st.selectedAgent.messages ++ sendsMessages evs := by
  induction evs with
  | nil => intro st _; simp [runSends, sendsMessages]
  | cons ev rest ih =>
      intro st h
      have h1 : strTrim ev.text ≠ "" := h ev (by simp)
      have h2 : ∀ e ∈ rest, strTrim e.text ≠ "" := fun e he => h e (by simp [he])
      show (runSends (stepSend st ev) rest).selectedAgent.messages = _
      rw [ih (stepSend st ev) h2, stepSend_messages st ev h1]
      simp [sendsMessages]

theorem pairs_append : ∀ (l l' : List Message), isUserAgentPairs l = true →
    isUserAgentPairs (l ++ l') = isUserAgentPairs l'
  | [], _, _ => by simp
  | [_], _, h => by simp [isUserAgentPairs] at h
  | u :: a :: rest, l', h => by
      simp only [isUserAgentPairs, Bool.and_eq_true, decide_eq_true_eq] at h
      obtain ⟨⟨h1, h2⟩, h3⟩ := h
      show (decide (u.sender = Sender.user) && decide (a.sender = Sender.agent)
          && isUserAgentPairs (rest ++ l')) = isUserAgentPairs l'
      rw [pairs_append rest l' h3]
      simp [h1, h2]

theorem sendsMessages_pairs (evs : List SendEvent) :
    isUserAgentPairs (sendsMessages evs) = true := by
  induction evs with
  | nil => simp [sendsMessages, isUserAgentPairs]
  | cons ev rest ih =>
      simp only [sendsMessages, isUserAgentPairs, Bool.and_eq_true, decide_eq_true_eq]
      exact ⟨⟨userMessageOf_sender ev, agentMessageOf_sender ev⟩, ih⟩

theorem sendsMessages_timestamps (evs : List SendEvent) :
    (sendsMessages evs).map Message.timestamp = eventTimes evs := by
  induction evs with
  | nil => simp [sendsMessages, eventTimes]
  | cons ev rest ih =>
      simp only [sendsMessages, eventTimes, List.map_cons, List.cons.injEq]
      exact ⟨rfl, agentMessageOf_timestamp ev, ih⟩

theorem get_congr {α : Type} (l l' : List α) (hl : l = l') (i : Nat)
    (h : i < l.length) (h' : i < l'.length) : l.get ⟨i, h⟩ = l'.get ⟨i, h'⟩ := by
  subst hl
  rfl

theorem get_map_eq {α β : Type} (f : α → β) :
    ∀ (l : List α) (i : Nat) (h2 : i < (l.map f).length) (h : i < l.length),
      (l.map f).get ⟨i, h2⟩ = f (l.get ⟨i, h⟩)
  | _ :: _, 0, _, _ => rfl
  | _ :: t, i + 1, h2, h => get_map_eq f t i (by simpa using h2) (by simpa using h)
  | [], i, h2, _ => absurd h2 (by simp)

/-! Claim theorems. -/

/-- C1: for every prompt whose trimmed form is non-empty, the
classifier evaluates the rules in the fixed priority order (ends with
"habit tracker", ends with "physics notes", starts with "code me an
app", starts with "create me an agent to", starts with "search for")
on the lower-cased prompt - stated as equality with the first-match
evaluation of the ordered spec rule list - so exactly one category
with its fixed display name, or none, results; when no rule matches,
no entity is created and the entity collection is unchanged; and the
two quoted examples classify as stated. -/
theorem C1_classifier_priority_order :
    (∀ p : String, classifyPrompt p = firstMatch p) ∧
    (∀ (p : String) (agents : List Agent) (now : Nat) (ok : Bool),
        strTrim p ≠ "" → classifyPrompt p = none →
        handleGenerateAgent p agents now ok
          = { agents := agents, createRequest := none }) ∧
    classifyPrompt "create me an agent to manage notes"
      = some (AgentType.customNotion, "Custom Notion Agent") ∧
    classifyPrompt "hello" = none := by
  refine ⟨classify_eq_firstMatch, ?_, by decide, by decide⟩
  intro p agents now ok hne hcl
  simp [handleGenerateAgent, hne, hcl]

/-- Witness for C1 at the prompt "hello". -/
theorem C1_classifier_priority_order_witness :
    (strTrim "hello" ≠ "" ∧ classifyPrompt "hello" = none) ∧
    handleGenerateAgent "hello" [] 5 true = { agents := [], createRequest := none } :=
  ⟨⟨by decide, by decide⟩,
    C1_classifier_priority_order.2.1 "hello" [] 5 true (by decide) (by decide)⟩

/-- C2 counterexample: the claim says a response body lacking a usable
messages field yields the fixed fallback text, but on a 2xx response
whose parsed body has no messages field the code appends an
entity-origin message whose content is the JS value undefined, not the
fallback text. -/
theorem C2_missing_messages_counterexample :
    (handleSendMessage "hi" [] probeAgent 0 0 (.ok .absent)).selectedAgent.messages.map
        (fun m => (m.sender, m.content))
      = [(Sender.user, some "hi"), (Sender.agent, none)] ∧
    (none : Option String) ≠ some fallbackText :=
  ⟨by decide, by decide⟩

/-- C2 (amended): for every send whose awaited request throws -
transport error, non-2xx status, or the response body failing to parse
- exactly one entity-origin message with exactly the fixed fallback
text is appended to the selected entity, and the handler is total (no
exception escapes); a parsed 2xx body lacking the messages field
instead appends one entity-origin message with undefined content. -/
theorem C2_failure_appends_fallback (msg : String) (agents : List Agent) (sel : Agent)
    (tS tR : Nat) (hne : strTrim msg ≠ "") :
    ((handleSendMessage msg agents sel tS tR .httpError).selectedAgent.messages
        = sel.messages ++
          [ { id := natToString tS, content := some msg
              sender := .user, timestamp := tS }
          , { id := natToString (tR + 1), content := some fallbackText
              sender := .agent, timestamp := tR } ]) ∧
    ((handleSendMessage msg agents sel tS tR (.ok .absent)).selectedAgent.messages
        = sel.messages ++
          [ { id := natToString tS, content := some msg
              sender := .user, timestamp := tS }
          , { id := natToString (tR + 1), content := none
              sender := .agent, timestamp := tR } ]) := by
  constructor <;>
    rw [handleSendMessage_selected msg agents sel tS tR _ hne] <;>
    simp [userMessageOf, agentMessageOf, renderedContent]

/-- Witness for C2 at a concrete failing send. -/
theorem C2_failure_appends_fallback_witness :
    strTrim "hi" ≠ "" ∧
    ((handleSendMessage "hi" [] probeAgent 2 3 .httpError).selectedAgent.messages
        = probeAgent.messages ++
          [ { id := natToString 2, content := some "hi"
              sender := .user, timestamp := 2 }
          , { id := natToString (3 + 1), content := some fallbackText
              sender := .agent, timestamp := 3 } ]) :=
  ⟨by decide, (C2_failure_appends_fallback "hi" [] probeAgent 2 3 (by decide)).1⟩

/-- C3 counterexample: the claim says the part of the second pipe
component after the first hyphen becomes page_id, but for the input
"Update my page|abc-dxz-tail" the code dispatches page_id "dxz" (the
segment between the first and second hyphen), not "dxz-tail". -/
theorem C3_pipe_split_counterexample :
    (handleSendMessage "Update my page|abc-dxz-tail" [] notionProbe 0 0 .httpError).request
      = some { endpoint := "custom-notion"
               payload := Payload.notion "Update my page" "abc-dxz-tail" "dxz" } ∧
    Payload.notion "Update my page" "abc-dxz-tail" "dxz"
      ≠ Payload.notion "Update my page" "abc-dxz-tail" "dxz-tail" :=
  ⟨by decide, by decide⟩

/-- C3 (amended): for every custom-notion send whose raw input
contains a pipe, the trimmed input is split on every pipe character
with each part trimmed and the first two parts taken as message and
notion_id; page_id is the segment of notion_id between its first and
second hyphen (the whole remainder only when there is a single
hyphen), or empty when notion_id has no hyphen; and for the input
"Update my page|abc-dxz" the dispatched payload is exactly
message "Update my page", notion_id "abc-dxz", page_id "dxz". -/
theorem C3_pipe_payload (msg : String) (agents : List Agent) (sel : Agent)
    (tS tR : Nat) (out : ApiOutcome)
    (hsel : sel.type = .customNotion) (hp : strContainsChar msg '|' = true)
    (hne : strTrim msg ≠ "") :
    ((handleSendMessage msg agents sel tS tR out).request
      = some { endpoint := "custom-notion"
               payload := Payload.notion
                 (((strSplitOn (strTrim msg) '|').map strTrim).getD 0 "")
                 (((strSplitOn (strTrim msg) '|').map strTrim).getD 1 "")
                 (if strContainsChar
                      (((strSplitOn (strTrim msg) '|').map strTrim).getD 1 "") '-'
                  then (strSplitOn
                      (((strSplitOn (strTrim msg) '|').map strTrim).getD 1 "") '-').getD 1 ""
                  else "") }) ∧
    (handleSendMessage "Update my page|abc-dxz" [] notionProbe 0 0 .httpError).request
      = some { endpoint := "custom-notion"
               payload := Payload.notion "Update my page" "abc-dxz" "dxz" } := by
  constructor
  · rw [handleSendMessage_request msg agents sel tS tR out hne]
    simp [buildRequest, hsel, hp]
  · decide

/-- Witness for C3 at the input "Update my page|abc-dxz". -/
theorem C3_pipe_payload_witness :
    (notionProbe.type = AgentType.customNotion ∧
      strContainsChar "Update my page|abc-dxz" '|' = true ∧
      strTrim "Update my page|abc-dxz" ≠ "") ∧
    (handleSendMessage "Update my page|abc-dxz" [] notionProbe 0 0 .httpError).request
      = some { endpoint := "custom-notion"
               payload := Payload.notion "Update my page" "abc-dxz" "dxz" } :=
  ⟨⟨by decide, by decide, by decide⟩,
    (C3_pipe_payload "Update my page|abc-dxz" [] notionProbe 0 0 .httpError
      (by decide) (by decide) (by decide)).2⟩

/-- C4: for every send whose request succeeds with a decodable
response containing a messages field, exactly one entity-origin
message is appended whose text equals that field when it is a single
string, and equals the elements joined with newline separators when it
is a sequence of strings. -/
theorem C4_success_appends_reply (msg : String) (agents : List Agent) (sel : Agent)
    (tS tR : Nat) (hne : strTrim msg ≠ "") :
    (∀ s : String,
      (handleSendMessage msg agents sel tS tR (.ok (.str s))).selectedAgent.messages
        = sel.messages ++
          [ { id := natToString tS, content := some msg
              sender := .user, timestamp := tS }
          , { id := natToString (tR + 1), content := some s
              sender := .agent, timestamp := tR } ]) ∧
    (∀ l : List String,
      (handleSendMessage msg agents sel tS tR (.ok (.arr l))).selectedAgent.messages
        = sel.messages ++
          [ { id := natToString tS, content := some msg
              sender := .user, timestamp := tS }
          , { id := natToString (tR + 1), content := some (joinWithNewline l)
              sender := .agent, timestamp := tR } ]) := by
  constructor <;> intro x <;>
    rw [handleSendMessage_selected msg agents sel tS tR _ hne] <;>
    simp [userMessageOf, agentMessageOf, renderedContent]

/-- Witness for C4 at a concrete successful send with a two-element
messages array. -/
theorem C4_success_appends_reply_witness :
    strTrim "hi" ≠ "" ∧
    (handleSendMessage "hi" [] probeAgent 2 3 (.ok (.arr ["a", "b"]))).selectedAgent.messages
      = probeAgent.messages ++
        [ { id := natToString 2, content := some "hi"
            sender := .user, timestamp := 2 }
        , { id := natToString (3 + 1), content := some (joinWithNewline ["a", "b"])
            sender := .agent, timestamp := 3 } ] :=
  ⟨by decide, (C4_success_appends_reply "hi" [] probeAgent 2 3 (by decide)).2 ["a", "b"]⟩

/-- C5: for every custom-notion send whose raw input contains no pipe
character, the dispatched payload is message equal to the raw text,
notion_id equal to the stored externalRefA or empty, page_id equal to
the stored externalRefB or empty; in particular with stored refs "X"
and "Y" the input "Update my page" dispatches exactly those. -/
theorem C5_noPipe_payload_stored_refs (msg : String) (agents : List Agent) (sel : Agent)
    (tS tR : Nat) (out : ApiOutcome)
    (hsel : sel.type = .customNotion) (hp : strContainsChar msg '|' = false)
    (hne : strTrim msg ≠ "") :
    ((handleSendMessage msg agents sel tS tR out).request
      = some { endpoint := "custom-notion"
               payload := Payload.notion msg (sel.notionId.getD "") (sel.pageId.getD "") }) ∧
    (handleSendMessage "Update my page" [] notionProbe 0 0 .httpError).request
      = some { endpoint := "custom-notion"
               payload := Payload.notion "Update my page" "X" "Y" } := by
  constructor
  · rw [handleSendMessage_request msg agents sel tS tR out hne]
    simp [buildRequest, hsel, hp]
  · decide

/-- Witness for C5 at the input "Update my page" with stored refs "X"
and "Y". -/
theorem C5_noPipe_payload_stored_refs_witness :
    (notionProbe.type = AgentType.customNotion ∧
      strContainsChar "Update my page" '|' = false ∧
      strTrim "Update my page" ≠ "") ∧
    (handleSendMessage "Update my page" [] notionProbe 0 0 .httpError).request
      = some { endpoint := "custom-notion"
               payload := Payload.notion "Update my page"
                 (notionProbe.notionId.getD "") (notionProbe.pageId.getD "") } :=
  ⟨⟨by decide, by decide, by decide⟩,
    (C5_noPipe_payload_stored_refs "Update my page" [] notionProbe 0 0 .httpError
      (by decide) (by decide) (by decide)).1⟩

/-- C6: over any sequence of sends with non-empty trimmed text, the
selected entity's message list is only ever appended to (the new list
is the old list followed by, per send, exactly one user-origin message
then exactly one entity-origin message - the reply or the fallback),
alternation in user/entity pairs is preserved, and when the list
starts empty its timestamps are exactly the event times in order, so
strictly increasing event times give a strictly chronological list;
moreover each send installs its user-origin message optimistically,
before the network outcome is consumed. -/
theorem C6_sends_append_alternating_pairs (st : AppState) (evs : List SendEvent)
    (hne : ∀ ev ∈ evs, strTrim ev.text ≠ "") :
    ((runSends st evs).selectedAgent.messages
        = st.selectedAgent.messages ++ sendsMessages evs) ∧
    (∀ (msg : String) (agents2 : List Agent) (sel : Agent) (tS tR : Nat)
        (out : ApiOutcome), strTrim msg ≠ "" →
        (handleSendMessage msg agents2 sel tS tR out).optimisticSelected.messages
          = sel.messages ++
            [ { id := natToString tS, content := some msg
                sender := .user, timestamp := tS } ]) ∧
    (isUserAgentPairs st.selectedAgent.messages = true →
        isUserAgentPairs (runSends st evs).selectedAgent.messages = true) ∧
    (st.selectedAgent.messages = [] →
        (runSends st evs).selectedAgent.messages.map Message.timestamp = eventTimes evs) ∧
    (st.selectedAgent.messages = [] → List.Chain' (· < ·) (eventTimes evs) →
        List.Chain' (· < ·)
          ((runSends st evs).selectedAgent.messages.map Message.timestamp)) := by
  have hm := runSends_messages evs st hne
  refine ⟨hm, ?_, ?_, ?_, ?_⟩
  · intro msg agents2 sel tS tR out hne2
    cases out <;> simp [handleSendMessage, hne2]
  · intro hp
    rw [hm, pairs_append _ _ hp, sendsMessages_pairs]
  · intro h0
    rw [hm, h0]
    simp [sendsMessages_timestamps]
  · intro h0 hc
    rw [hm, h0]
    simpa [sendsMessages_timestamps] using hc

/-- Witness for C6: two sends against a fresh entity, one failing and
one succeeding. -/
theorem C6_sends_append_alternating_pairs_witness :
    (∀ ev ∈ [ ({ text := "hi", tSend := 0, tRecv := 1, outcome := .httpError } : SendEvent)
            , { text := "again", tSend := 2, tRecv := 3, outcome := .ok (.str "ok") } ],
        strTrim ev.text ≠ "") ∧
    ((runSends { agents := [probeAgent], selectedAgent := probeAgent }
        [ { text := "hi", tSend := 0, tRecv := 1, outcome := .httpError }
        , { text := "again", tSend := 2, tRecv := 3, outcome := .ok (.str "ok") } ]).selectedAgent.messages
      = probeAgent.messages ++ sendsMessages
          [ { text := "hi", tSend := 0, tRecv := 1, outcome := .httpError }
          , { text := "again", tSend := 2, tRecv := 3, outcome := .ok (.str "ok") } ]) :=
  ⟨by decide,
    (C6_sends_append_alternating_pairs
      { agents := [probeAgent], selectedAgent := probeAgent }
      [ { text := "hi", tSend := 0, tRecv := 1, outcome := .httpError }
      , { text := "again", tSend := 2, tRecv := 3, outcome := .ok (.str "ok") } ]
      (by decide)).1⟩

/-- C7: for every matched prompt exactly one new entity is appended to
the end of the entity collection and existing entities are untouched;
the result does not depend on the outcome of the backend creation call
(its failure does not block local creation); and for a custom-notion
prompt the creation request carrying the time-derived notion_id is
issued. -/
theorem C7_creation_request_nonblocking (prompt : String) (agents : List Agent)
    (now : Nat) (t : AgentType) (name : String)
    (h : classifyPrompt prompt = some (t, name)) (hne : strTrim prompt ≠ "") :
    (∀ ok : Bool, (handleGenerateAgent prompt agents now ok).agents
        = agents ++ [mkAgent prompt t name
            (if t = .customNotion
             then some ("CustomNotion-" ++ natToBase36 now) else none) now]) ∧
    (handleGenerateAgent prompt agents now true
        = handleGenerateAgent prompt agents now false) ∧
    (t = .customNotion → ∀ ok : Bool,
        (handleGenerateAgent prompt agents now ok).createRequest
          = some { notion_id := "CustomNotion-" ++ natToBase36 now }) ∧
    (∀ ok : Bool,
        (handleGenerateAgent prompt agents now ok).agents.take agents.length = agents) := by
  refine ⟨?_, ?_, ?_, ?_⟩
  · intro ok
    rw [handleGenerateAgent_match prompt agents now ok t name h hne]
  · rw [handleGenerateAgent_match prompt agents now true t name h hne,
      handleGenerateAgent_match prompt agents now false t name h hne]
  · intro ht ok
    rw [handleGenerateAgent_match prompt agents now ok t name h hne]
    simp [ht]
  · intro ok
    rw [handleGenerateAgent_match prompt agents now ok t name h hne]
    exact List.take_left agents _

/-- Witness for C7 at a custom-notion prompt. -/
theorem C7_creation_request_nonblocking_witness :
    (classifyPrompt "create me an agent to manage my notion"
        = some (AgentType.customNotion, "Custom Notion Agent") ∧
      strTrim "create me an agent to manage my notion" ≠ "") ∧
    (AgentType.customNotion = AgentType.customNotion →
      ∀ ok : Bool,
        (handleGenerateAgent "create me an agent to manage my notion" [] 5 ok).createRequest
          = some { notion_id := "CustomNotion-" ++ natToBase36 5 }) :=
  ⟨⟨by decide, by decide⟩,
    (C7_creation_request_nonblocking "create me an agent to manage my notion" [] 5
      AgentType.customNotion "Custom Notion Agent" (by decide) (by decide)).2.2.1⟩

/-- C8: a send leaves every entity other than the selected one (by id)
entirely unchanged, at its original position, and preserves the length
of the entity collection; only elements whose id equals the selected
entity's id are replaced. -/
theorem C8_send_frame_other_entities (msg : String) (agents : List Agent) (sel : Agent)
    (tS tR : Nat) (out : ApiOutcome) :
    ((handleSendMessage msg agents sel tS tR out).agents.length = agents.length) ∧
    (∀ (i : Nat) (h : i < agents.length)
        (h2 : i < (handleSendMessage msg agents sel tS tR out).agents.length),
        (agents.get ⟨i, h⟩).id ≠ sel.id →
        (handleSendMessage msg agents sel tS tR out).agents.get ⟨i, h2⟩
          = agents.get ⟨i, h⟩) := by
  by_cases hne : strTrim msg = ""
  · have ha : (handleSendMessage msg agents sel tS tR out).agents = agents := by
      simp [handleSendMessage, hne]
    refine ⟨by rw [ha], ?_⟩
    intro i h h2 _
    exact get_congr _ _ ha i h2 h
  · have ha := handleSendMessage_agents msg agents sel tS tR out hne
    have hlen : (handleSendMessage msg agents sel tS tR out).agents.length
        = agents.length := by
      rw [ha]
      simp
    refine ⟨hlen, ?_⟩
    intro i h h2 hid
    have h3 : i < (agents.map (fun agent =>
        if agent.id = sel.id
        then (handleSendMessage msg agents sel tS tR out).selectedAgent
        else agent)).length := by simpa using h
    rw [get_congr _ _ ha i h2 h3, get_map_eq _ agents i h3 h, if_neg hid]

/-- Witness for C8: a failing send with one other entity in the
collection. -/
theorem C8_send_frame_other_entities_witness :
    (([notionProbe].get ⟨0, by decide⟩).id ≠ probeAgent.id) ∧
    (handleSendMessage "hi" [notionProbe] probeAgent 0 0 .httpError).agents.get
        ⟨0, by decide⟩
      = [notionProbe].get ⟨0, by decide⟩ :=
  ⟨by decide,
    (C8_send_frame_other_entities "hi" [notionProbe] probeAgent 0 0 .httpError).2
      0 (by decide) (by decide) (by decide)⟩

/-- C9 counterexample: entity ids are derived from the call timestamp
alone (`Date.now().toString()`), so two classifications of the same
prompt within the same millisecond produce entities with EQUAL ids -
the claimed unconditional id distinctness fails. -/
theorem C9_same_timestamp_counterexample :
    (handleGenerateAgent "Create a habit tracker"
        (handleGenerateAgent "Create a habit tracker" [] 5 true).agents 5 true).agents.map
        Agent.id
      = ["5", "5"] := by
  decide

/-- C9 (amended): classifying the same matching prompt twice, at
distinct call timestamps, appends two entities that have distinct ids
but identical category, display name, and freeform description (two
calls sharing one millisecond timestamp share an id). -/
theorem C9_reclassify_distinct_ids (prompt : String) (agents : List Agent)
    (now1 now2 : Nat) (ok1 ok2 : Bool) (t : AgentType) (name : String)
    (h : classifyPrompt prompt = some (t, name)) (hne : strTrim prompt ≠ "")
    (hnow : now1 ≠ now2) :
    ∃ e1 e2 : Agent,
      (handleGenerateAgent prompt
          (handleGenerateAgent prompt agents now1 ok1).agents now2 ok2).agents
        = agents ++ [e1, e2] ∧
      e1.id ≠ e2.id ∧ e1.type = e2.type ∧ e1.name = e2.name ∧
      e1.description = e2.description := by
  refine ⟨mkAgent prompt t name
      (if t = .customNotion then some ("CustomNotion-" ++ natToBase36 now1) else none) now1,
    mkAgent prompt t name
      (if t = .customNotion then some ("CustomNotion-" ++ natToBase36 now2) else none) now2,
    ?_, ?_, rfl, rfl, rfl⟩
  · rw [handleGenerateAgent_match prompt agents now1 ok1 t name h hne,
      handleGenerateAgent_match prompt _ now2 ok2 t name h hne]
    simp
  · intro hid
    exact hnow (natToString_inj now1 now2 (by simpa [mkAgent] using hid))

/-- Witness for C9 at the prompt "Create a habit tracker" and call
timestamps 1 and 2. -/
theorem C9_reclassify_distinct_ids_witness :
    (classifyPrompt "Create a habit tracker"
        = some (AgentType.habitTracker, "Habit Tracker Assistant") ∧
      strTrim "Create a habit tracker" ≠ "" ∧ (1 : Nat) ≠ 2) ∧
    (∃ e1 e2 : Agent,
      (handleGenerateAgent "Create a habit tracker"
          (handleGenerateAgent "Create a habit tracker" [] 1 true).agents 2 true).agents
        = [] ++ [e1, e2] ∧
      e1.id ≠ e2.id ∧ e1.type = e2.type ∧ e1.name = e2.name ∧
      e1.description = e2.description) :=
  ⟨⟨by decide, by decide, by decide⟩,
    C9_reclassify_distinct_ids "Create a habit tracker" [] 1 2 true true
      AgentType.habitTracker "Habit Tracker Assistant" (by decide) (by decide) (by decide)⟩

/-- C10: no operation populates an entity's pageId: every entity the
classifier appends has pageId unset; a send preserves the selected
entity's stored notionId and pageId; and consequently a no-pipe
custom-notion send for an entity whose pageId is unset dispatches
page_id equal to the empty string (and notion_id equal to the stored
notionId or empty). -/
theorem C10_pageId_never_populated :
    (∀ (prompt : String) (agents : List Agent) (now : Nat) (ok : Bool) (a : Agent),
        a ∈ (handleGenerateAgent prompt agents now ok).agents →
        a ∈ agents ∨ a.pageId = none) ∧
    (∀ (msg : String) (agents : List Agent) (sel : Agent) (tS tR : Nat) (out : ApiOutcome),
        (handleSendMessage msg agents sel tS tR out).selectedAgent.notionId
            = sel.notionId ∧
        (handleSendMessage msg agents sel tS tR out).selectedAgent.pageId = sel.pageId) ∧
    (∀ (msg : String) (agents : List Agent) (sel : Agent) (tS tR : Nat) (out : ApiOutcome),
        sel.type = .customNotion → sel.pageId = none →
        strContainsChar msg '|' = false → strTrim msg ≠ "" →
        (handleSendMessage msg agents sel tS tR out).request
          = some { endpoint := "custom-notion"
                   payload := Payload.notion msg (sel.notionId.getD "") "" }) := by
  refine ⟨?_, ?_, ?_⟩
  · intro prompt agents now ok a ha
    by_cases hne : strTrim prompt = ""
    · left
      simpa [handleGenerateAgent, hne] using ha
    · cases hcl : classifyPrompt prompt with
      | none =>
          left
          simpa [handleGenerateAgent, hne, hcl] using ha
      | some tn =>
          obtain ⟨t, name⟩ := tn
          rw [handleGenerateAgent_match prompt agents now ok t name hcl hne] at ha
          rcases List.mem_append.mp ha with hmem | hmem
          · exact Or.inl hmem
          · right
            rw [List.mem_singleton] at hmem
            rw [hmem]
            rfl
  · intro msg agents sel tS tR out
    by_cases hne : strTrim msg = ""
    · simp [handleSendMessage, hne]
    · rw [handleSendMessage_selected msg agents sel tS tR out hne]
      exact ⟨rfl, rfl⟩
  · intro msg agents sel tS tR out hsel hpage hp hne
    rw [handleSendMessage_request msg agents sel tS tR out hne]
    simp [buildRequest, hsel, hp, hpage]

/-- Witness for C10: a no-pipe send on an entity exactly as the
classifier creates it. -/
theorem C10_pageId_never_populated_witness :
    (freshNotionAgent.type = AgentType.customNotion ∧ freshNotionAgent.pageId = none ∧
      strContainsChar "Update my page" '|' = false ∧ strTrim "Update my page" ≠ "") ∧
    (handleSendMessage "Update my page" [] freshNotionAgent 0 0 .httpError).request
      = some { endpoint := "custom-notion"
               payload := Payload.notion "Update my page"
                 (freshNotionAgent.notionId.getD "") "" } :=
  ⟨⟨by decide, by decide, by decide, by decide⟩,
    C10_pageId_never_populated.2.2 "Update my page" [] freshNotionAgent 0 0 .httpError
      (by decide) (by decide) (by decide) (by decide)⟩

end UiAitm
